import Mathlib

/-!
Verification of the LLM backend abstraction and dispatch layer of the
`question_tool` repository (`src/core/llm_backend.rs`, `src/core/gpt_backend.rs`,
`src/core/github_backend.rs`, `src/app/llm_settings.rs`).

The network is modelled by an oracle (`NetOracle`) fixing the outcome of the
streaming attempt (either a failure to open, or the ordered list of stream
items, each an `Ok` item with optional delta content or an `Err`), the outcome
of the non-streaming attempt, and the outcome of image-file decoding.  The
backends' `send_message` / `test_availability` are translated as pure functions
of the backend state and the oracle, returning the ordered list of chunks
pushed into the `mpsc` sink, the returned `Result`, and how many streaming /
non-streaming network attempts were performed.
-/

set_option maxRecDepth 4000

deriving instance DecidableEq for Except

/-- Mirror of `LLMResponse` (`llm_backend.rs`): one chunk pushed into the
`mpsc::Sender<LLMResponse>` sink. -/
structure LLMResponse where
  content : String
  is_complete : Bool
deriving DecidableEq, Repr

/-- One item produced by the opened SSE stream, as consumed by the
`while let Some(result) = response.next().await` loops: an `Ok` chunk whose
`choices.first().delta.content` may be absent, or an `Err`. -/
inductive StreamEvent where
  | delta (content : Option String)
  | failure (err : String)
deriving DecidableEq, Repr

/-- Outcome oracle for one `send_message` / `test_availability` call:
`streamResult` is the outcome of `send_stream()` (`Except.error e` = failed to
open; `Except.ok events` = opened, then yields `events` in order),
`nonStreamResult` is the outcome of the non-streaming `send()`
(`Except.ok c` with `c` the `choices.first().message.content` option), and
`imageBase64Result` is the outcome of `image_to_base64`. -/
structure NetOracle where
  streamResult : Except String (List StreamEvent)
  nonStreamResult : Except String (Option String)
  imageBase64Result : Except String String
deriving DecidableEq, Repr

/-- Mirror of `async_llm::ChatMessage` as used by `build_messages`. -/
inductive ChatMessage where
  | system (s : String)
  | user (s : String)
  | user_image_with_text (text : String) (dataUrl : String)
deriving DecidableEq, Repr

/-- The shared stream-consumption loop of both backends: walk the stream items
in order, appending each present delta to the accumulator and pushing a
cumulative non-final chunk for it; stop at the first `Err` item.  Returns the
chunks pushed, the final accumulated content, and the interrupting error (if
any). -/
def streamLoop : List StreamEvent → String → List LLMResponse × String × Option String
  | [], acc => ([], acc, none)
  | .delta none :: rest, acc => streamLoop rest acc
  | .delta (some c) :: rest, acc =>
      let acc2 := acc ++ c
      let r := streamLoop rest acc2
      (⟨acc2, false⟩ :: r.1, r.2)
  | .failure e :: _, acc => ([], acc, some e)

/-- Result of one `send_message` call: the chunks pushed into the sink in
order, the returned `Result`, and the number of streaming / non-streaming
network attempts that were made. -/
structure SendResult where
  chunks : List LLMResponse
  result : Except String Unit
  streamAttempts : Nat
  nonStreamAttempts : Nat
deriving DecidableEq, Repr

/-- Result of one `test_availability` call. -/
structure TestResult where
  result : Except String String
  streamAttempts : Nat
  nonStreamAttempts : Nat
deriving DecidableEq, Repr

/-- Mirror of `GPTBackend` (`gpt_backend.rs`). -/
structure GPTBackend where
  model : String
  api_key : Option String
  base_url : Option String
deriving DecidableEq, Repr

/-- `impl Default for GPTBackend`. -/
def GPTBackend.default : GPTBackend :=
  { model := "gpt-4o", api_key := none, base_url := some "https://api.tu-zi.com/v1" }

/-- `GPTBackend::new`. -/
def GPTBackend.new (model : String) : GPTBackend :=
  { model := model, api_key := none, base_url := none }

/-- `GPTBackend::with_api_key`. -/
def GPTBackend.with_api_key (b : GPTBackend) (api_key : String) : GPTBackend :=
  { b with api_key := some api_key }

/-- `GPTBackend::with_base_url`. -/
def GPTBackend.with_base_url (b : GPTBackend) (base_url : String) : GPTBackend :=
  { b with base_url := some base_url }

/-- `GPTBackend::build_messages`: with an image path, try `image_to_base64`
(outcome given by the oracle) and fall back to a text-only message list on
failure; without one, a plain text message list. -/
def GPTBackend.build_messages (_b : GPTBackend) (text : String)
    (image_path : Option String) (o : NetOracle) : List ChatMessage :=
  match image_path with
  | some _ =>
    match o.imageBase64Result with
    | .ok base64 =>
        [ChatMessage.system "",
         ChatMessage.user_image_with_text text ("data:image/png;base64," ++ base64)]
    | .error _ =>
        [ChatMessage.system "You are a helpful assistant for analyzing questions and images.",
         ChatMessage.user text]
  | none => [ChatMessage.system "", ChatMessage.user text]

/-- `GPTBackend::send_message` (`gpt_backend.rs` lines 204-329).  No credential
check is performed; the streaming request is attempted first.  A failure to
open the stream triggers the single non-streaming fallback; an `Err` item
arriving mid-stream pushes a final error chunk and returns the error with no
fallback; a completed stream with empty accumulated content is treated as a
failure. -/
def GPTBackend.send_message (b : GPTBackend) (text : String)
    (image_path : Option String) (o : NetOracle) : SendResult :=
  let _messages := b.build_messages text image_path o
  match o.streamResult with
  | .ok events =>
    let r := streamLoop events ""
    match r.2.2 with
    | some e =>
        { chunks := r.1 ++ [⟨"Error during streaming: " ++ e, true⟩],
          result := .error e, streamAttempts := 1, nonStreamAttempts := 0 }
    | none =>
        if r.2.1 ≠ "" then
          { chunks := r.1 ++ [⟨r.2.1, true⟩],
            result := .ok (), streamAttempts := 1, nonStreamAttempts := 0 }
        else
          { chunks := r.1 ++ [⟨"Error: No response content from GPT streaming", true⟩],
            result := .error "No response content from GPT",
            streamAttempts := 1, nonStreamAttempts := 0 }
  | .error _ =>
    match o.nonStreamResult with
    | .ok contentOpt =>
      match contentOpt with
      | some c =>
        if c ≠ "" then
          { chunks := [⟨c, true⟩], result := .ok (),
            streamAttempts := 1, nonStreamAttempts := 1 }
        else
          { chunks := [⟨"Error: No response content from GPT non-streaming", true⟩],
            result := .error "No response content from GPT",
            streamAttempts := 1, nonStreamAttempts := 1 }
      | none =>
          { chunks := [⟨"Error: No response content from GPT non-streaming", true⟩],
            result := .error "No response content from GPT",
            streamAttempts := 1, nonStreamAttempts := 1 }
    | .error e2 =>
        { chunks :=
            [⟨"Error: Both streaming and non-streaming requests failed. Last error: " ++ e2,
              true⟩],
          result := .error e2, streamAttempts := 1, nonStreamAttempts := 1 }

/-- `GPTBackend::test_availability` (`gpt_backend.rs` lines 331-430): same
streaming-then-fallback shape, no sink, no credential check; a mid-stream error
is returned directly with no fallback. -/
def GPTBackend.test_availability (_b : GPTBackend) (o : NetOracle) : TestResult :=
  match o.streamResult with
  | .ok events =>
    let r := streamLoop events ""
    match r.2.2 with
    | some e => ⟨.error e, 1, 0⟩
    | none =>
        if r.2.1 ≠ "" then ⟨.ok r.2.1, 1, 0⟩
        else ⟨.error "No response content from GPT", 1, 0⟩
  | .error _ =>
    match o.nonStreamResult with
    | .ok contentOpt =>
      match contentOpt with
      | some c =>
          if c ≠ "" then ⟨.ok c, 1, 1⟩
          else ⟨.error "No response content from GPT", 1, 1⟩
      | none => ⟨.error "No response content from GPT", 1, 1⟩
    | .error e2 => ⟨.error e2, 1, 1⟩

/-- Mirror of `GitHubBackend` (`github_backend.rs`). -/
structure GitHubBackend where
  model : String
  api_token : Option String
  base_url : String
deriving DecidableEq, Repr

/-- `GitHubBackend::new`: the constructor reads the ambient `GITHUB_TOKEN`
environment variable, passed here explicitly as `envGithubToken`. -/
def GitHubBackend.new (model : String) (envGithubToken : Option String) : GitHubBackend :=
  { model := model, api_token := envGithubToken,
    base_url := "https://models.inference.ai.azure.com" }

/-- `GitHubBackend::with_api_key`. -/
def GitHubBackend.with_api_key (b : GitHubBackend) (api_key : String) : GitHubBackend :=
  { b with api_token := some api_key }

/-- `GitHubBackend::with_base_url`. -/
def GitHubBackend.with_base_url (b : GitHubBackend) (base_url : String) : GitHubBackend :=
  { b with base_url := base_url }

/-- `GitHubBackend::build_messages`. -/
def GitHubBackend.build_messages (_b : GitHubBackend) (text : String)
    (image_path : Option String) (o : NetOracle) : List ChatMessage :=
  match image_path with
  | some _ =>
    match o.imageBase64Result with
    | .ok base64 =>
        [ChatMessage.system
           "You are GitHub Copilot, a helpful AI assistant for analyzing questions and images.",
         ChatMessage.user_image_with_text text ("data:image/png;base64," ++ base64)]
    | .error _ =>
        [ChatMessage.system "you have to follow the follow rules", ChatMessage.user text]
  | none =>
      [ChatMessage.system "you have to follow the follow rules", ChatMessage.user text]

/-- `GitHubBackend::try_streaming_request` (`github_backend.rs` lines 105-148):
open the stream (propagating an open failure), push a cumulative non-final
chunk per delta, return the first mid-stream error or the accumulated content
(possibly empty). -/
def GitHubBackend.try_streaming_request (_b : GitHubBackend) (o : NetOracle) :
    List LLMResponse × Except String String :=
  match o.streamResult with
  | .error e => ([], .error e)
  | .ok events =>
    let r := streamLoop events ""
    match r.2.2 with
    | some e => (r.1, .error e)
    | none => (r.1, .ok r.2.1)

/-- `GitHubBackend::try_non_streaming_request` (`github_backend.rs` lines
151-177): the content defaults to the empty string when absent. -/
def GitHubBackend.try_non_streaming_request (_b : GitHubBackend) (o : NetOracle) :
    Except String String :=
  match o.nonStreamResult with
  | .error e => .error e
  | .ok contentOpt => .ok (contentOpt.getD "")

/-- The missing-token error message of the GitHub backend. -/
def githubTokenErrMsg : String :=
  "GitHub token not available. Please set GITHUB_TOKEN environment variable."

/-- `GitHubBackend::send_message` (`github_backend.rs` lines 190-244): fail
fast with a final error chunk when `api_token` is `None`; otherwise try the
streaming request, and on any streaming error (open failure or mid-stream)
perform the single non-streaming fallback. -/
def GitHubBackend.send_message (b : GitHubBackend) (text : String)
    (image_path : Option String) (o : NetOracle) : SendResult :=
  if b.api_token = none then
    { chunks := [⟨"Error: " ++ githubTokenErrMsg, true⟩],
      result := .error githubTokenErrMsg,
      streamAttempts := 0, nonStreamAttempts := 0 }
  else
    let _messages := b.build_messages text image_path o
    let s := b.try_streaming_request o
    match s.2 with
    | .ok content =>
        { chunks := s.1 ++ [⟨content, true⟩], result := .ok (),
          streamAttempts := 1, nonStreamAttempts := 0 }
    | .error _ =>
      match b.try_non_streaming_request o with
      | .ok content =>
          { chunks := s.1 ++ [⟨content, true⟩], result := .ok (),
            streamAttempts := 1, nonStreamAttempts := 1 }
      | .error e2 =>
          { chunks :=
              s.1 ++
                [⟨"Error: Both streaming and non-streaming requests failed. Last error: " ++ e2,
                  true⟩],
            result := .error e2, streamAttempts := 1, nonStreamAttempts := 1 }

/-- `GitHubBackend::test_availability` (`github_backend.rs` lines 246-330):
fail fast when `api_token` is `None`; a mid-stream error during the test is
returned with no fallback; an empty reply is a failure. -/
def GitHubBackend.test_availability (b : GitHubBackend) (o : NetOracle) : TestResult :=
  if b.api_token = none then
    ⟨.error githubTokenErrMsg, 0, 0⟩
  else
    match o.streamResult with
    | .ok events =>
      let r := streamLoop events ""
      match r.2.2 with
      | some e => ⟨.error e, 1, 0⟩
      | none =>
          if r.2.1 ≠ "" then ⟨.ok r.2.1, 1, 0⟩
          else ⟨.error "No response content from GitHub Models", 1, 0⟩
    | .error _ =>
      match o.nonStreamResult with
      | .ok contentOpt =>
          let content := contentOpt.getD ""
          if content ≠ "" then ⟨.ok content, 1, 1⟩
          else ⟨.error "No response content from GitHub Models", 1, 1⟩
      | .error e2 => ⟨.error e2, 1, 1⟩

/-- Mirror of `LLMConfig` (`llm_settings.rs`). -/
structure LLMConfig where
  provider : String
  model : String
  api_key : Option String
  base_url : Option String
  github_token : Option String
  enable_streaming : Bool
deriving DecidableEq, Repr

/-- The two concrete backend variants registered by the manager. -/
inductive Backend where
  | gpt (b : GPTBackend)
  | github (b : GitHubBackend)
deriving DecidableEq, Repr

/-- Mirror of `LLMManager` (`llm_backend.rs`). -/
structure LLMManager where
  backends : List Backend
  current_backend : Option Nat
deriving DecidableEq, Repr

/-- `LLMManager::new`. -/
def LLMManager.new : LLMManager := { backends := [], current_backend := none }

/-- `LLMManager::add_backend`: push the backend, record its index, and make it
current when no current backend was set; returns the index and the new state. -/
def LLMManager.add_backend (m : LLMManager) (b : Backend) : Nat × LLMManager :=
  let index := m.backends.length
  let backends := m.backends ++ [b]
  let current := if m.current_backend = none then some index else m.current_backend
  (index, { backends := backends, current_backend := current })

/-- `LLMManager::set_current_backend`: bounds-checked switch; out-of-range
indices return an error and leave the state unchanged. -/
def LLMManager.set_current_backend (m : LLMManager) (index : Nat) :
    Except String Unit × LLMManager :=
  if index < m.backends.length then
    (.ok (), { m with current_backend := some index })
  else
    (.error ("Backend index " ++ toString index ++ " out of range"), m)

/-- `LLMManager::from_config` (`llm_backend.rs` lines 63-102): build the GPT
backend from the config on top of its defaults, then the GitHub backend (whose
constructor reads the ambient `GITHUB_TOKEN`, passed as `envGithubToken`),
register both, and select the current one from `config.provider`, defaulting
to the GPT backend on an unrecognized tag. -/
def LLMManager.from_config (config : LLMConfig) (envGithubToken : Option String) :
    LLMManager :=
  let manager := LLMManager.new
  let gpt0 := GPTBackend.default
  let gpt1 := match config.api_key with
    | some api_key => gpt0.with_api_key api_key
    | none => gpt0
  let gpt2 := match config.base_url with
    | some base_url => if base_url ≠ "" then gpt1.with_base_url base_url else gpt1
    | none => gpt1
  let gpt3 := { gpt2 with model := config.model }
  let r1 := manager.add_backend (Backend.gpt gpt3)
  let gpt_index := r1.1
  let gh0 := GitHubBackend.new config.model envGithubToken
  let gh1 := match config.github_token with
    | some token => gh0.with_api_key token
    | none => gh0
  let r2 := r1.2.add_backend (Backend.github gh1)
  let github_index := r2.1
  let m2 := r2.2
  match config.provider with
  | "GPT" => (m2.set_current_backend gpt_index).2
  | "GitHub" => (m2.set_current_backend github_index).2
  | _ => (m2.set_current_backend gpt_index).2

/-- `LLMManager::current_backend`. -/
def LLMManager.get_current_backend (m : LLMManager) : Option Backend :=
  match m.current_backend with
  | some index => m.backends.get? index
  | none => none

/-- Mirror of `LLMSettingsManager` (`llm_settings.rs`), restricted to its
in-memory state (the config-file path is I/O). -/
structure LLMSettingsManager where
  config : LLMConfig
  manager : LLMManager
deriving DecidableEq, Repr

/-- `LLMSettingsManager::set_streaming` (`llm_settings.rs` lines 127-130):
updates only the config flag; unlike the other setters it does not call
`update_manager`, so the manager is left untouched. -/
def LLMSettingsManager.set_streaming (s : LLMSettingsManager) (enable : Bool) :
    LLMSettingsManager :=
  { s with config := { s.config with enable_streaming := enable } }

/-- `LLMSettingsManager::set_provider` (for contrast: it rebuilds the manager
via `update_manager`). -/
def LLMSettingsManager.set_provider (s : LLMSettingsManager) (provider : String)
    (envGithubToken : Option String) : LLMSettingsManager :=
  let config := { s.config with provider := provider }
  { config := config, manager := LLMManager.from_config config envGithubToken }

/-- States of the manager reachable through its public constructors and
mutators (`new`, `from_config` and arbitrary interleavings of `add_backend`
and `set_current_backend`). -/
inductive Reachable : LLMManager → Prop where
  | step_new : Reachable LLMManager.new
  | step_from_config (config : LLMConfig) (env : Option String) :
      Reachable (LLMManager.from_config config env)
  | step_add (m : LLMManager) (b : Backend) :
      Reachable m → Reachable (m.add_backend b).2
  | step_set (m : LLMManager) (i : Nat) :
      Reachable m → Reachable (m.set_current_backend i).2

/-- The manager invariant of the spec: a set current index is in bounds, and a
non-empty backend list always has a current index set. -/
def managerInv (m : LLMManager) : Prop :=
  (∀ i, m.current_backend = some i → i < m.backends.length) ∧
  (m.backends ≠ [] → m.current_backend ≠ none)

/-- `a` extended by some (possibly empty) suffix gives `b`: the cumulative
relation between successive streamed chunk contents. -/
def extendsTo (a b : String) : Prop := ∃ t, a ++ t = b

/-- Substring test used to state the composite-error-message properties. -/
def listHasInfix : List Char → List Char → Bool
  | [], needle => needle.isEmpty
  | a :: t, needle => List.isPrefixOf needle (a :: t) || listHasInfix t needle

/-- `strContainsSub hay needle` holds when `needle` occurs contiguously in
`hay`. -/
def strContainsSub (hay needle : String) : Bool :=
  listHasInfix hay.data needle.data

/-- The non-final chunks a `send_message` call pushes while its streaming
attempt is alive, as a function of the oracle. -/
def streamChunksOf (o : NetOracle) : List LLMResponse :=
  match o.streamResult with
  | .ok events => (streamLoop events "").1
  | .error _ => []

/-- The error with which the streaming attempt of a call fails, if it fails
(either failing to open or interrupted mid-stream). -/
def streamErrOf (o : NetOracle) : Option String :=
  match o.streamResult with
  | .ok events => (streamLoop events "").2.2
  | .error e => some e

example :
    (GPTBackend.send_message GPTBackend.default "hi" none
      ⟨.ok [.delta (some "He"), .delta none, .delta (some "llo")], .error "x", .error "img"⟩)
    = { chunks := [⟨"He", false⟩, ⟨"Hello", false⟩, ⟨"Hello", true⟩],
        result := .ok (), streamAttempts := 1, nonStreamAttempts := 0 } := by decide

example :
    (GPTBackend.send_message GPTBackend.default "hi" none
      ⟨.ok [.delta (some "He"), .failure "boom"], .ok (some "rec"), .error "img"⟩)
    = { chunks := [⟨"He", false⟩, ⟨"Error during streaming: boom", true⟩],
        result := .error "boom", streamAttempts := 1, nonStreamAttempts := 0 } := by decide

example :
    (GitHubBackend.send_message ⟨"gpt-4o", some "tok", "u"⟩ "hi" none
      ⟨.ok [.delta (some "He"), .failure "boom"], .ok (some "rec"), .error "img"⟩)
    = { chunks := [⟨"He", false⟩, ⟨"rec", true⟩],
        result := .ok (), streamAttempts := 1, nonStreamAttempts := 1 } := by decide

theorem streamLoop_nonfinal (events : List StreamEvent) (acc : String) :
    ∀ c ∈ (streamLoop events acc).1, c.is_complete = false := by
  induction events generalizing acc with
  | nil => simp [streamLoop]
  | cons ev rest ih =>
    cases ev with
    | delta oc =>
      cases oc with
      | none => simpa [streamLoop] using ih acc
      | some c =>
        intro x hx
        simp only [streamLoop, List.mem_cons] at hx
        rcases hx with h | h
        · rw [h]
        · exact ih _ x h
    | failure e => simp [streamLoop]

theorem streamLoop_cumulative (events : List StreamEvent) (acc : String) :
    List.Chain' extendsTo (acc :: (streamLoop events acc).1.map LLMResponse.content) := by
  induction events generalizing acc with
  | nil => simp [streamLoop]
  | cons ev rest ih =>
    cases ev with
    | delta oc =>
      cases oc with
      | none => simpa [streamLoop] using ih acc
      | some c =>
        simp only [streamLoop, List.map_cons]
        rw [List.chain'_cons]
        exact ⟨⟨c, rfl⟩, ih (acc ++ c)⟩
    | failure e => simp [streamLoop]

theorem streamChunksOf_nonfinal (o : NetOracle) :
    ∀ c ∈ streamChunksOf o, c.is_complete = false := by
  unfold streamChunksOf
  cases o.streamResult with
  | ok events => exact streamLoop_nonfinal events ""
  | error e => simp

theorem streamChunksOf_cumulative (o : NetOracle) :
    List.Chain' extendsTo ("" :: (streamChunksOf o).map LLMResponse.content) := by
  unfold streamChunksOf
  cases o.streamResult with
  | ok events => exact streamLoop_cumulative events ""
  | error e => simp

theorem streamChunksOf_countP (o : NetOracle) :
    (streamChunksOf o).countP (fun c => c.is_complete) = 0 := by
  rw [List.countP_eq_zero]
  intro c hc
  simp [streamChunksOf_nonfinal o c hc]

theorem gpt_send_message_chunks (b : GPTBackend) (text : String)
    (image_path : Option String) (o : NetOracle) :
    ∃ t : LLMResponse, t.is_complete = true ∧
      (b.send_message text image_path o).chunks = streamChunksOf o ++ [t] := by
  rcases o with ⟨sr, nsr, ir⟩
  cases sr with
  | ok events =>
    cases herr : (streamLoop events "").2.2 with
    | some e =>
        refine ⟨⟨"Error during streaming: " ++ e, true⟩, rfl, ?_⟩
        simp [GPTBackend.send_message, streamChunksOf, herr]
    | none =>
        by_cases hne : (streamLoop events "").2.1 = ""
        · refine ⟨⟨"Error: No response content from GPT streaming", true⟩, rfl, ?_⟩
          simp [GPTBackend.send_message, streamChunksOf, herr, hne]
        · refine ⟨⟨(streamLoop events "").2.1, true⟩, rfl, ?_⟩
          simp [GPTBackend.send_message, streamChunksOf, herr, hne]
  | error e =>
    cases nsr with
    | ok contentOpt =>
      cases contentOpt with
      | some c =>
        by_cases hc : c = ""
        · refine ⟨⟨"Error: No response content from GPT non-streaming", true⟩, rfl, ?_⟩
          simp [GPTBackend.send_message, streamChunksOf, hc]
        · refine ⟨⟨c, true⟩, rfl, ?_⟩
          simp [GPTBackend.send_message, streamChunksOf, hc]
      | none =>
        refine ⟨⟨"Error: No response content from GPT non-streaming", true⟩, rfl, ?_⟩
        simp [GPTBackend.send_message, streamChunksOf]
    | error e2 =>
      refine
        ⟨⟨"Error: Both streaming and non-streaming requests failed. Last error: " ++ e2, true⟩,
          rfl, ?_⟩
      simp [GPTBackend.send_message, streamChunksOf]

theorem github_send_message_chunks_token_none (b : GitHubBackend) (text : String)
    (image_path : Option String) (o : NetOracle) (h : b.api_token = none) :
    (b.send_message text image_path o).chunks = [⟨"Error: " ++ githubTokenErrMsg, true⟩] := by
  simp [GitHubBackend.send_message, h]

theorem github_send_message_chunks_token_some (b : GitHubBackend) (text : String)
    (image_path : Option String) (o : NetOracle) (h : b.api_token ≠ none) :
    ∃ t : LLMResponse, t.is_complete = true ∧
      (b.send_message text image_path o).chunks = streamChunksOf o ++ [t] := by
  rcases o with ⟨sr, nsr, ir⟩
  cases sr with
  | ok events =>
    cases herr : (streamLoop events "").2.2 with
    | some e =>
      cases nsr with
      | ok contentOpt =>
        refine ⟨⟨contentOpt.getD "", true⟩, rfl, ?_⟩
        simp [GitHubBackend.send_message, GitHubBackend.try_streaming_request,
          GitHubBackend.try_non_streaming_request, streamChunksOf, h, herr]
      | error e2 =>
        refine
          ⟨⟨"Error: Both streaming and non-streaming requests failed. Last error: " ++ e2, true⟩,
            rfl, ?_⟩
        simp [GitHubBackend.send_message, GitHubBackend.try_streaming_request,
          GitHubBackend.try_non_streaming_request, streamChunksOf, h, herr]
    | none =>
      refine ⟨⟨(streamLoop events "").2.1, true⟩, rfl, ?_⟩
      simp [GitHubBackend.send_message, GitHubBackend.try_streaming_request,
        streamChunksOf, h, herr]
  | error e =>
    cases nsr with
    | ok contentOpt =>
      refine ⟨⟨contentOpt.getD "", true⟩, rfl, ?_⟩
      simp [GitHubBackend.send_message, GitHubBackend.try_streaming_request,
        GitHubBackend.try_non_streaming_request, streamChunksOf, h]
    | error e2 =>
      refine
        ⟨⟨"Error: Both streaming and non-streaming requests failed. Last error: " ++ e2, true⟩,
          rfl, ?_⟩
      simp [GitHubBackend.send_message, GitHubBackend.try_streaming_request,
        GitHubBackend.try_non_streaming_request, streamChunksOf, h]

theorem extendsTo_length {a b : String} (hab : extendsTo a b) : a.length ≤ b.length := by
  obtain ⟨t, rfl⟩ := hab
  simp [String.length_append]

theorem gpt_send_message_attempts (b : GPTBackend) (text : String)
    (image_path : Option String) (o : NetOracle) :
    (b.send_message text image_path o).streamAttempts = 1 ∧
    (b.send_message text image_path o).nonStreamAttempts =
      (match o.streamResult with | .ok _ => 0 | .error _ => 1) := by
  rcases o with ⟨sr, nsr, ir⟩
  cases sr with
  | ok events =>
    cases herr : (streamLoop events "").2.2 with
    | some e => simp [GPTBackend.send_message, herr]
    | none =>
        by_cases hne : (streamLoop events "").2.1 = "" <;>
          simp [GPTBackend.send_message, herr, hne]
  | error e =>
    cases nsr with
    | ok contentOpt =>
      cases contentOpt with
      | some c => by_cases hc : c = "" <;> simp [GPTBackend.send_message, hc]
      | none => simp [GPTBackend.send_message]
    | error e2 => simp [GPTBackend.send_message]

theorem gpt_test_availability_attempts (b : GPTBackend) (o : NetOracle) :
    (b.test_availability o).streamAttempts = 1 := by
  rcases o with ⟨sr, nsr, ir⟩
  cases sr with
  | ok events =>
    cases herr : (streamLoop events "").2.2 with
    | some e => simp [GPTBackend.test_availability, herr]
    | none =>
        by_cases hne : (streamLoop events "").2.1 = "" <;>
          simp [GPTBackend.test_availability, herr, hne]
  | error e =>
    cases nsr with
    | ok contentOpt =>
      cases contentOpt with
      | some c => by_cases hc : c = "" <;> simp [GPTBackend.test_availability, hc]
      | none => simp [GPTBackend.test_availability]
    | error e2 => simp [GPTBackend.test_availability]

theorem github_send_message_attempts (b : GitHubBackend) (text : String)
    (image_path : Option String) (o : NetOracle) (h : b.api_token ≠ none) :
    (b.send_message text image_path o).streamAttempts = 1 ∧
    (b.send_message text image_path o).nonStreamAttempts =
      (match streamErrOf o with | some _ => 1 | none => 0) := by
  rcases o with ⟨sr, nsr, ir⟩
  cases sr with
  | ok events =>
    cases herr : (streamLoop events "").2.2 with
    | some e =>
      cases nsr <;>
        simp [GitHubBackend.send_message, GitHubBackend.try_streaming_request,
          GitHubBackend.try_non_streaming_request, streamErrOf, h, herr]
    | none =>
      simp [GitHubBackend.send_message, GitHubBackend.try_streaming_request,
        streamErrOf, h, herr]
  | error e =>
    cases nsr <;>
      simp [GitHubBackend.send_message, GitHubBackend.try_streaming_request,
        GitHubBackend.try_non_streaming_request, streamErrOf, h]

theorem from_config_eq (config : LLMConfig) (env : Option String) :
    LLMManager.from_config config env =
      { backends :=
          [Backend.gpt
            { model := config.model,
              api_key := config.api_key,
              base_url :=
                match config.base_url with
                | some u => if u ≠ "" then some u else some "https://api.tu-zi.com/v1"
                | none => some "https://api.tu-zi.com/v1" },
           Backend.github
            { model := config.model,
              api_token := (match config.github_token with | some t => some t | none => env),
              base_url := "https://models.inference.ai.azure.com" }],
        current_backend := some (if config.provider = "GitHub" then 1 else 0) } := by
  rcases config with ⟨prov, model, key, burl, gtok, streaming⟩
  unfold LLMManager.from_config
  simp only [LLMManager.new, LLMManager.add_backend, LLMManager.set_current_backend,
    GPTBackend.default, GPTBackend.with_api_key, GPTBackend.with_base_url,
    GitHubBackend.new, GitHubBackend.with_api_key]
  cases key <;> cases gtok <;>
    first
    | (cases burl with
       | none =>
          split
          · simp_all
          · simp_all
          · simp_all
       | some u =>
          by_cases hu : u = "" <;>
            (simp only [hu]
             split
             · simp_all
             · simp_all
             · simp_all))

/-- C1: for every `send_message` invocation on either backend — any text, any
optional image path, and any outcome of the streaming and non-streaming
attempts (success, connect failure, mid-stream failure, empty content, or
missing credentials) — exactly one chunk with `is_complete = true` is pushed
into the chunk sink, on success paths and on every error path alike. -/
theorem send_message_exactly_one_final_chunk
    (g : GPTBackend) (gh : GitHubBackend) (text text2 : String)
    (img img2 : Option String) (o o2 : NetOracle) :
    ((g.send_message text img o).chunks.countP (fun c => c.is_complete)) = 1 ∧
    ((gh.send_message text2 img2 o2).chunks.countP (fun c => c.is_complete)) = 1 := by
  constructor
  · obtain ⟨t, ht, hc⟩ := gpt_send_message_chunks g text img o
    rw [hc, List.countP_append, streamChunksOf_countP]
    simp [List.countP_cons, ht]
  · by_cases htok : gh.api_token = none
    · rw [github_send_message_chunks_token_none gh text2 img2 o2 htok]
      simp [List.countP_cons]
    · obtain ⟨t, ht, hc⟩ := github_send_message_chunks_token_some gh text2 img2 o2 htok
      rw [hc, List.countP_append, streamChunksOf_countP]
      simp [List.countP_cons, ht]

/-- C9: within a single `send_message` call on either backend, the sequence of
non-final chunk contents pushed into the sink is cumulative — each successive
non-final chunk extends the previous one — so the accumulated content length
is monotonically non-decreasing across those chunks. -/
theorem send_message_nonfinal_chunks_cumulative
    (g : GPTBackend) (gh : GitHubBackend) (text text2 : String)
    (img img2 : Option String) (o o2 : NetOracle) :
    (List.Chain' extendsTo
        (((g.send_message text img o).chunks.filter (fun c => !c.is_complete)).map
          LLMResponse.content) ∧
      List.Chain' (fun a b : String => a.length ≤ b.length)
        (((g.send_message text img o).chunks.filter (fun c => !c.is_complete)).map
          LLMResponse.content)) ∧
    (List.Chain' extendsTo
        (((gh.send_message text2 img2 o2).chunks.filter (fun c => !c.is_complete)).map
          LLMResponse.content) ∧
      List.Chain' (fun a b : String => a.length ≤ b.length)
        (((gh.send_message text2 img2 o2).chunks.filter (fun c => !c.is_complete)).map
          LLMResponse.content)) := by
  have hfilter : ∀ (o : NetOracle),
      (streamChunksOf o).filter (fun c => !c.is_complete) = streamChunksOf o := fun o =>
    List.filter_eq_self.mpr (fun a ha => by simp [streamChunksOf_nonfinal o a ha])
  have hchain : ∀ (o : NetOracle),
      List.Chain' extendsTo ((streamChunksOf o).map LLMResponse.content) :=
    fun o => (streamChunksOf_cumulative o).tail
  have hlen : ∀ l : List String,
      List.Chain' extendsTo l → List.Chain' (fun a b => a.length ≤ b.length) l :=
    fun l h => h.imp (fun a b hab => extendsTo_length hab)
  constructor
  · obtain ⟨t, ht, hc⟩ := gpt_send_message_chunks g text img o
    have heq : ((streamChunksOf o ++ [t]).filter (fun c => !c.is_complete))
        = streamChunksOf o := by
      rw [List.filter_append, hfilter o]
      simp [ht]
    rw [hc, heq]
    exact ⟨hchain o, hlen _ (hchain o)⟩
  · by_cases htok : gh.api_token = none
    · rw [github_send_message_chunks_token_none gh text2 img2 o2 htok]
      simp
    · obtain ⟨t, ht, hc⟩ := github_send_message_chunks_token_some gh text2 img2 o2 htok
      have heq : ((streamChunksOf o2 ++ [t]).filter (fun c => !c.is_complete))
          = streamChunksOf o2 := by
        rw [List.filter_append, hfilter o2]
        simp [ht]
      rw [hc, heq]
      exact ⟨hchain o2, hlen _ (hchain o2)⟩

/-- C6: `set_current_backend i` with `i` out of range returns an error and
leaves the whole manager state unchanged, while an in-range `i` succeeds and
sets the current index to `i` without touching the backend list. -/
theorem set_current_backend_bounds (m : LLMManager) (i : Nat) :
    (m.backends.length ≤ i →
      (∃ msg, (m.set_current_backend i).1 = .error msg) ∧
      (m.set_current_backend i).2 = m) ∧
    (i < m.backends.length →
      (m.set_current_backend i).1 = .ok () ∧
      (m.set_current_backend i).2.current_backend = some i ∧
      (m.set_current_backend i).2.backends = m.backends) := by
  constructor
  · intro hle
    have hnot : ¬ i < m.backends.length := not_lt.mpr hle
    simp [LLMManager.set_current_backend, hnot]
  · intro hlt
    simp [LLMManager.set_current_backend, hlt]

/-- C6 witness: an out-of-range switch on the empty manager fails and changes
nothing; an in-range switch on a one-backend manager succeeds. -/
theorem set_current_backend_bounds_witness :
    ((∃ msg, (LLMManager.new.set_current_backend 5).1 = .error msg) ∧
      (LLMManager.new.set_current_backend 5).2 = LLMManager.new) ∧
    (((LLMManager.new.add_backend (Backend.gpt GPTBackend.default)).2.set_current_backend 0).1
        = .ok () ∧
      ((LLMManager.new.add_backend (Backend.gpt GPTBackend.default)).2.set_current_backend 0).2.current_backend
        = some 0 ∧
      ((LLMManager.new.add_backend (Backend.gpt GPTBackend.default)).2.set_current_backend 0).2.backends
        = (LLMManager.new.add_backend (Backend.gpt GPTBackend.default)).2.backends) :=
  ⟨(set_current_backend_bounds LLMManager.new 5).1 (by decide),
   (set_current_backend_bounds (LLMManager.new.add_backend (Backend.gpt GPTBackend.default)).2 0).2
     (by decide)⟩

/-- C7: `from_config` never fails and always registers exactly two backends —
the GPT backend at index 0 and the GitHub backend at index 1, each built from
the same config — with the current backend selected by `config.provider` and
defaulting to the GPT backend on an unrecognized tag. -/
theorem from_config_registers_both (config : LLMConfig) (env : Option String) :
    ∃ g gh, (LLMManager.from_config config env).backends
        = [Backend.gpt g, Backend.github gh] ∧
      g.model = config.model ∧ g.api_key = config.api_key ∧
      gh.model = config.model ∧
      gh.api_token = (match config.github_token with | some t => some t | none => env) ∧
      (LLMManager.from_config config env).current_backend
        = some (if config.provider = "GitHub" then 1 else 0) := by
  rw [from_config_eq]
  exact ⟨_, _, rfl, rfl, rfl, rfl, rfl, rfl⟩

theorem add_backend_backends (m : LLMManager) (b : Backend) :
    (m.add_backend b).2.backends = m.backends ++ [b] := rfl

theorem add_backend_current (m : LLMManager) (b : Backend) :
    (m.add_backend b).2.current_backend =
      if m.current_backend = none then some m.backends.length else m.current_backend := rfl

theorem set_current_backend_state (m : LLMManager) (i : Nat) :
    (m.set_current_backend i).2 =
      if i < m.backends.length then { m with current_backend := some i } else m := by
  unfold LLMManager.set_current_backend
  split <;> rfl

/-- C8: the manager invariant holds in every state reachable through `new`,
`from_config`, `add_backend` and `set_current_backend`: a set current index is
strictly below the backend-list length, and a non-empty backend list always
has a current index set. -/
theorem manager_invariant_reachable (m : LLMManager) (hm : Reachable m) :
    managerInv m := by
  induction hm with
  | step_new =>
    exact ⟨fun i hi => by simp [LLMManager.new] at hi,
           fun hne => by simp [LLMManager.new] at hne⟩
  | step_from_config config env =>
    rw [from_config_eq]
    constructor
    · intro i hi
      simp only [Option.some_inj] at hi
      have h2 : i ≤ 1 := by split at hi <;> omega
      show i < 2
      omega
    · intro _
      simp
  | step_add mm b hr ih =>
    obtain ⟨ih1, ih2⟩ := ih
    constructor
    · intro j hj
      rw [add_backend_current] at hj
      rw [add_backend_backends, List.length_append, List.length_cons, List.length_nil]
      by_cases hcur : mm.current_backend = none
      · rw [if_pos hcur, Option.some_inj] at hj
        omega
      · rw [if_neg hcur] at hj
        have := ih1 j hj
        omega
    · intro _
      rw [add_backend_current]
      by_cases hcur : mm.current_backend = none
      · rw [if_pos hcur]
        simp
      · rw [if_neg hcur]
        exact hcur
  | step_set mm ii hr ih =>
    obtain ⟨ih1, ih2⟩ := ih
    rw [set_current_backend_state]
    by_cases hlt : ii < mm.backends.length
    · rw [if_pos hlt]
      constructor
      · intro j hj
        have hb : ({ mm with current_backend := some ii } : LLMManager).backends
            = mm.backends := rfl
        have hc : ({ mm with current_backend := some ii } : LLMManager).current_backend
            = some ii := rfl
        rw [hc, Option.some_inj] at hj
        rw [hb]
        omega
      · intro _
        have hc : ({ mm with current_backend := some ii } : LLMManager).current_backend
            = some ii := rfl
        rw [hc]
        simp
    · rw [if_neg hlt]
      exact ⟨ih1, ih2⟩

/-- C8 witness: the invariant at the freshly constructed empty manager. -/
theorem manager_invariant_reachable_witness : managerInv LLMManager.new :=
  manager_invariant_reachable LLMManager.new Reachable.step_new

/-- C2 counterexample: on the GPT backend a mid-stream error ("connection
reset" arriving after one delta) surfaces a terminal error with zero
non-streaming fallback attempts, even though the fallback would have
succeeded. -/
theorem gpt_midstream_no_fallback_counterexample :
    (GPTBackend.send_message GPTBackend.default "q" none
      ⟨.ok [.delta (some "par"), .failure "connection reset"], .ok (some "recovered"),
        .error "img"⟩).nonStreamAttempts = 0 ∧
    (GPTBackend.send_message GPTBackend.default "q" none
      ⟨.ok [.delta (some "par"), .failure "connection reset"], .ok (some "recovered"),
        .error "img"⟩).result = .error "connection reset" := by
  constructor
  · decide
  · decide

/-- C2 (amended): the single non-streaming fallback is performed by the GitHub
backend on every streaming error, whether the stream fails to open or an error
arrives mid-stream; the GPT backend performs the fallback only when the stream
fails to open, and treats a mid-stream error as terminal with no fallback
attempt. -/
theorem streaming_error_fallback_policy
    (g : GPTBackend) (gh : GitHubBackend) (text text2 text3 : String)
    (img img2 img3 : Option String) (o o2 o3 : NetOracle) :
    (∀ e, gh.api_token ≠ none → streamErrOf o = some e →
      (gh.send_message text img o).nonStreamAttempts = 1) ∧
    (∀ e, o2.streamResult = .error e →
      (g.send_message text2 img2 o2).nonStreamAttempts = 1) ∧
    (∀ events, o3.streamResult = .ok events →
      (g.send_message text3 img3 o3).nonStreamAttempts = 0) := by
  refine ⟨?_, ?_, ?_⟩
  · intro e htok herr
    have h2 := (github_send_message_attempts gh text img o htok).2
    rw [herr] at h2
    exact h2
  · intro e he
    have h2 := (gpt_send_message_attempts g text2 img2 o2).2
    rw [he] at h2
    exact h2
  · intro events he
    have h2 := (gpt_send_message_attempts g text3 img3 o3).2
    rw [he] at h2
    exact h2

/-- C2 witness: a GitHub mid-stream drop falls back once; a GPT connect
failure falls back once; a GPT call whose stream opened never falls back. -/
theorem streaming_error_fallback_policy_witness :
    (GitHubBackend.send_message ⟨"gpt-4o", some "tok", "u"⟩ "q" none
      ⟨.ok [.failure "drop"], .error "e2", .error "i"⟩).nonStreamAttempts = 1 ∧
    (GPTBackend.send_message GPTBackend.default "q" none
      ⟨.error "no conn", .ok (some "x"), .error "i"⟩).nonStreamAttempts = 1 ∧
    (GPTBackend.send_message GPTBackend.default "q" none
      ⟨.ok [.delta (some "hello")], .error "e", .error "i"⟩).nonStreamAttempts = 0 := by
  obtain ⟨h1, h2, h3⟩ := streaming_error_fallback_policy GPTBackend.default
    ⟨"gpt-4o", some "tok", "u"⟩ "q" "q" "q" none none none
    ⟨.ok [.failure "drop"], .error "e2", .error "i"⟩
    ⟨.error "no conn", .ok (some "x"), .error "i"⟩
    ⟨.ok [.delta (some "hello")], .error "e", .error "i"⟩
  exact ⟨h1 "drop" (by decide) (by decide), h2 "no conn" rfl, h3 [.delta (some "hello")] rfl⟩

/-- C3 counterexample: when the streaming attempt fails with "STREAMERR1" and
the fallback fails with "NSERR2", the GPT backend returns exactly the
non-streaming error, whose message does not contain the streaming failure
description, and no delivered chunk contains it either. -/
theorem composite_error_counterexample :
    (GPTBackend.send_message GPTBackend.default "q" none
      ⟨.error "STREAMERR1", .error "NSERR2", .error "img"⟩).result = .error "NSERR2" ∧
    strContainsSub "NSERR2" "STREAMERR1" = false ∧
    ((GPTBackend.send_message GPTBackend.default "q" none
      ⟨.error "STREAMERR1", .error "NSERR2", .error "img"⟩).chunks.all
        (fun c => !(strContainsSub c.content "STREAMERR1"))) = true := by
  refine ⟨by decide, by decide, by decide⟩

/-- C3 (amended): when both attempts fail, either backend returns exactly the
non-streaming error `e2` — not a composite of both — and the terminal chunk
carries the message "Error: Both streaming and non-streaming requests failed.
Last error: e2", which embeds only the non-streaming failure description. -/
theorem both_attempts_failed_error
    (g : GPTBackend) (gh : GitHubBackend) (text text2 : String)
    (img img2 : Option String) (o o2 : NetOracle) :
    (∀ e1 e2, o.streamResult = .error e1 → o.nonStreamResult = .error e2 →
      (g.send_message text img o).result = .error e2 ∧
      (g.send_message text img o).chunks =
        [⟨"Error: Both streaming and non-streaming requests failed. Last error: " ++ e2,
          true⟩]) ∧
    (∀ e1 e2, gh.api_token ≠ none → streamErrOf o2 = some e1 →
      o2.nonStreamResult = .error e2 →
      (gh.send_message text2 img2 o2).result = .error e2 ∧
      (gh.send_message text2 img2 o2).chunks =
        streamChunksOf o2 ++
          [⟨"Error: Both streaming and non-streaming requests failed. Last error: " ++ e2,
            true⟩]) := by
  constructor
  · intro e1 e2 hs hn
    rcases o with ⟨sr, nsr, ir⟩
    cases sr with
    | ok events => simp at hs
    | error e =>
      cases nsr with
      | ok c => simp at hn
      | error e2h =>
        have he : e = e1 := by simpa using hs
        have he2 : e2h = e2 := by simpa using hn
        subst he
        subst he2
        exact ⟨rfl, rfl⟩
  · intro e1 e2 htok herr hn
    rcases o2 with ⟨sr, nsr, ir⟩
    cases nsr with
    | ok c => simp at hn
    | error e2h =>
      have he2 : e2h = e2 := by simpa using hn
      subst he2
      cases sr with
      | ok events =>
        simp only [streamErrOf] at herr
        constructor
        · simp [GitHubBackend.send_message, GitHubBackend.try_streaming_request,
            GitHubBackend.try_non_streaming_request, htok, herr]
        · simp [GitHubBackend.send_message, GitHubBackend.try_streaming_request,
            GitHubBackend.try_non_streaming_request, streamChunksOf, htok, herr]
      | error e =>
        constructor
        · simp [GitHubBackend.send_message, GitHubBackend.try_streaming_request,
            GitHubBackend.try_non_streaming_request, htok]
        · simp [GitHubBackend.send_message, GitHubBackend.try_streaming_request,
            GitHubBackend.try_non_streaming_request, streamChunksOf, htok]

/-- C3 witness: the amended behaviour at concrete double failures on both
backends. -/
theorem both_attempts_failed_error_witness :
    ((GPTBackend.send_message GPTBackend.default "q" none
        ⟨.error "E1", .error "E2", .error "i"⟩).result = .error "E2" ∧
      (GPTBackend.send_message GPTBackend.default "q" none
        ⟨.error "E1", .error "E2", .error "i"⟩).chunks =
        [⟨"Error: Both streaming and non-streaming requests failed. Last error: " ++ "E2",
          true⟩]) ∧
    ((GitHubBackend.send_message ⟨"m", some "tok", "u"⟩ "q" none
        ⟨.error "E3", .error "E4", .error "i"⟩).result = .error "E4" ∧
      (GitHubBackend.send_message ⟨"m", some "tok", "u"⟩ "q" none
        ⟨.error "E3", .error "E4", .error "i"⟩).chunks =
        streamChunksOf ⟨.error "E3", .error "E4", .error "i"⟩ ++
          [⟨"Error: Both streaming and non-streaming requests failed. Last error: " ++ "E4",
            true⟩]) :=
  ⟨(both_attempts_failed_error GPTBackend.default ⟨"m", some "tok", "u"⟩ "q" "q" none none
      ⟨.error "E1", .error "E2", .error "i"⟩ ⟨.error "E3", .error "E4", .error "i"⟩).1
      "E1" "E2" rfl rfl,
   (both_attempts_failed_error GPTBackend.default ⟨"m", some "tok", "u"⟩ "q" "q" none none
      ⟨.error "E1", .error "E2", .error "i"⟩ ⟨.error "E3", .error "E4", .error "i"⟩).2
      "E3" "E4" (by decide) rfl rfl⟩

/-- C4 counterexample: the GPT backend performs no credential check — with
`api_key = None` a send still makes the streaming network attempt and can
succeed, and `test_availability` likewise proceeds. -/
theorem gpt_missing_key_counterexample :
    (GPTBackend.new "gpt-4o").api_key = none ∧
    ((GPTBackend.new "gpt-4o").send_message "q" none
      ⟨.ok [.delta (some "hello")], .error "x", .error "i"⟩).result = .ok () ∧
    ((GPTBackend.new "gpt-4o").send_message "q" none
      ⟨.ok [.delta (some "hello")], .error "x", .error "i"⟩).streamAttempts = 1 ∧
    ((GPTBackend.new "gpt-4o").test_availability
      ⟨.ok [.delta (some "hello")], .error "x", .error "i"⟩).result = .ok "hello" := by
  refine ⟨by decide, by decide, by decide, by decide⟩

/-- C4 (amended): only the GitHub backend fails fast on a missing credential:
with `api_token = None`, `send_message` delivers a single final chunk carrying
the descriptive token error and returns that error with zero network attempts,
and `test_availability` returns the same error with zero attempts. The GPT
backend performs no credential check: even with `api_key = None` it always
makes the streaming attempt (a missing key only means no environment variable
is exported). -/
theorem missing_credential_policy
    (g : GPTBackend) (gh : GitHubBackend) (text text2 : String)
    (img img2 : Option String) (o o2 : NetOracle)
    (hgh : gh.api_token = none) (_hg : g.api_key = none) :
    gh.send_message text img o =
      ⟨[⟨"Error: " ++ githubTokenErrMsg, true⟩], .error githubTokenErrMsg, 0, 0⟩ ∧
    gh.test_availability o = ⟨.error githubTokenErrMsg, 0, 0⟩ ∧
    (g.send_message text2 img2 o2).streamAttempts = 1 ∧
    (g.test_availability o2).streamAttempts = 1 := by
  refine ⟨?_, ?_, (gpt_send_message_attempts g text2 img2 o2).1,
    gpt_test_availability_attempts g o2⟩
  · simp [GitHubBackend.send_message, hgh]
  · simp [GitHubBackend.test_availability, hgh]

/-- C4 witness: the amended behaviour at a token-less GitHub backend and a
key-less GPT backend. -/
theorem missing_credential_policy_witness :
    (GitHubBackend.new "gpt-4o" none).send_message "q" none
        ⟨.error "x", .error "y", .error "i"⟩ =
      ⟨[⟨"Error: " ++ githubTokenErrMsg, true⟩], .error githubTokenErrMsg, 0, 0⟩ ∧
    (GitHubBackend.new "gpt-4o" none).test_availability
        ⟨.error "x", .error "y", .error "i"⟩ = ⟨.error githubTokenErrMsg, 0, 0⟩ ∧
    ((GPTBackend.new "gpt-4o").send_message "q" none
        ⟨.error "x", .error "y", .error "i"⟩).streamAttempts = 1 ∧
    ((GPTBackend.new "gpt-4o").test_availability
        ⟨.error "x", .error "y", .error "i"⟩).streamAttempts = 1 :=
  missing_credential_policy (GPTBackend.new "gpt-4o") (GitHubBackend.new "gpt-4o" none)
    "q" "q" none none ⟨.error "x", .error "y", .error "i"⟩
    ⟨.error "x", .error "y", .error "i"⟩ rfl rfl

/-- C5 counterexample: a GPT streaming attempt that opens and completes
without a stream error but with empty accumulated content does not push the
accumulated content and does not return Ok: it pushes a final error chunk and
returns an error. -/
theorem gpt_empty_stream_counterexample :
    (GPTBackend.send_message GPTBackend.default "q" none
      ⟨.ok [], .ok (some "x"), .error "i"⟩).result = .error "No response content from GPT" ∧
    (GPTBackend.send_message GPTBackend.default "q" none
      ⟨.ok [], .ok (some "x"), .error "i"⟩).chunks
      = [⟨"Error: No response content from GPT streaming", true⟩] := by
  refine ⟨by decide, by decide⟩

/-- C5 (amended): when the streaming attempt opens and completes without a
stream error, the GitHub backend always pushes a final chunk carrying the full
accumulated content (empty included) and returns Ok; the GPT backend does so
only when the accumulated content is non-empty, and treats an empty
accumulation as a failure, pushing a final error chunk and returning an
error. -/
theorem stream_completion_final_content
    (g : GPTBackend) (gh : GitHubBackend) (text text2 : String)
    (img img2 : Option String) (o o2 : NetOracle) :
    (∀ events, gh.api_token ≠ none → o.streamResult = .ok events →
      (streamLoop events "").2.2 = none →
      (gh.send_message text img o).chunks =
        (streamLoop events "").1 ++ [⟨(streamLoop events "").2.1, true⟩] ∧
      (gh.send_message text img o).result = .ok ()) ∧
    (∀ events, o2.streamResult = .ok events → (streamLoop events "").2.2 = none →
      ((streamLoop events "").2.1 ≠ "" →
        (g.send_message text2 img2 o2).chunks =
          (streamLoop events "").1 ++ [⟨(streamLoop events "").2.1, true⟩] ∧
        (g.send_message text2 img2 o2).result = .ok ()) ∧
      ((streamLoop events "").2.1 = "" →
        (g.send_message text2 img2 o2).chunks =
          (streamLoop events "").1 ++
            [⟨"Error: No response content from GPT streaming", true⟩] ∧
        (g.send_message text2 img2 o2).result = .error "No response content from GPT")) := by
  constructor
  · intro events htok hs herr
    rcases o with ⟨sr, nsr, ir⟩
    cases sr with
    | ok ev =>
      have hev : ev = events := by simpa using hs
      subst hev
      constructor
      · simp [GitHubBackend.send_message, GitHubBackend.try_streaming_request, htok, herr]
      · simp [GitHubBackend.send_message, GitHubBackend.try_streaming_request, htok, herr]
    | error e => simp at hs
  · intro events hs herr
    rcases o2 with ⟨sr, nsr, ir⟩
    cases sr with
    | ok ev =>
      have hev : ev = events := by simpa using hs
      subst hev
      constructor
      · intro hne
        constructor
        · simp [GPTBackend.send_message, herr, hne]
        · simp [GPTBackend.send_message, herr, hne]
      · intro he
        constructor
        · simp [GPTBackend.send_message, herr, he]
        · simp [GPTBackend.send_message, herr, he]
    | error e => simp at hs

/-- C5 witness: a clean one-delta stream on each backend delivers the
accumulated content and Ok. -/
theorem stream_completion_final_content_witness :
    ((GitHubBackend.send_message ⟨"m", some "t", "u"⟩ "q" none
        ⟨.ok [.delta (some "hi")], .error "x", .error "i"⟩).chunks =
      (streamLoop [.delta (some "hi")] "").1 ++
        [⟨(streamLoop [.delta (some "hi")] "").2.1, true⟩] ∧
      (GitHubBackend.send_message ⟨"m", some "t", "u"⟩ "q" none
        ⟨.ok [.delta (some "hi")], .error "x", .error "i"⟩).result = .ok ()) ∧
    ((GPTBackend.send_message GPTBackend.default "q" none
        ⟨.ok [.delta (some "hi")], .error "x", .error "i"⟩).chunks =
      (streamLoop [.delta (some "hi")] "").1 ++
        [⟨(streamLoop [.delta (some "hi")] "").2.1, true⟩] ∧
      (GPTBackend.send_message GPTBackend.default "q" none
        ⟨.ok [.delta (some "hi")], .error "x", .error "i"⟩).result = .ok ()) :=
  ⟨(stream_completion_final_content GPTBackend.default ⟨"m", some "t", "u"⟩ "q" "q" none none
      ⟨.ok [.delta (some "hi")], .error "x", .error "i"⟩
      ⟨.ok [.delta (some "hi")], .error "x", .error "i"⟩).1
      [.delta (some "hi")] (by decide) rfl rfl,
   ((stream_completion_final_content GPTBackend.default ⟨"m", some "t", "u"⟩ "q" "q" none none
      ⟨.ok [.delta (some "hi")], .error "x", .error "i"⟩
      ⟨.ok [.delta (some "hi")], .error "x", .error "i"⟩).2
      [.delta (some "hi")] rfl rfl).1 (by decide)⟩

/-- C10: the `enable_streaming` flag has no effect on behaviour: `from_config`
ignores it (two configs differing at most in that flag produce identical
managers), `set_streaming` changes only the stored flag without rebuilding the
manager, and a streaming attempt is always made first on a send regardless of
any flag. -/
theorem enable_streaming_no_effect
    (c1 c2 : LLMConfig) (env : Option String) (s : LLMSettingsManager) (enable : Bool)
    (g : GPTBackend) (gh : GitHubBackend) (text text2 : String)
    (img img2 : Option String) (o o2 : NetOracle)
    (hprov : c1.provider = c2.provider) (hmodel : c1.model = c2.model)
    (hkey : c1.api_key = c2.api_key) (hurl : c1.base_url = c2.base_url)
    (htok : c1.github_token = c2.github_token) (hgh : gh.api_token ≠ none) :
    LLMManager.from_config c1 env = LLMManager.from_config c2 env ∧
    (s.set_streaming enable).manager = s.manager ∧
    (g.send_message text img o).streamAttempts = 1 ∧
    (gh.send_message text2 img2 o2).streamAttempts = 1 := by
  refine ⟨?_, rfl, (gpt_send_message_attempts g text img o).1,
    (github_send_message_attempts gh text2 img2 o2 hgh).1⟩
  rw [from_config_eq, from_config_eq, hprov, hmodel, hkey, hurl, htok]

/-- C10 witness: two default-like configs differing only in `enable_streaming`
yield the same manager, and `set_streaming` leaves the manager of a settings
state untouched. -/
theorem enable_streaming_no_effect_witness :
    LLMManager.from_config ⟨"GPT", "gpt-4o", none, none, none, true⟩ none =
      LLMManager.from_config ⟨"GPT", "gpt-4o", none, none, none, false⟩ none ∧
    ((⟨⟨"GPT", "gpt-4o", none, none, none, true⟩, LLMManager.new⟩ :
        LLMSettingsManager).set_streaming false).manager =
      (⟨⟨"GPT", "gpt-4o", none, none, none, true⟩, LLMManager.new⟩ :
        LLMSettingsManager).manager ∧
    ((GPTBackend.new "gpt-4o").send_message "q" none
      ⟨.error "x", .error "y", .error "i"⟩).streamAttempts = 1 ∧
    ((GitHubBackend.new "gpt-4o" (some "t")).send_message "q" none
      ⟨.error "x", .error "y", .error "i"⟩).streamAttempts = 1 :=
  enable_streaming_no_effect ⟨"GPT", "gpt-4o", none, none, none, true⟩
    ⟨"GPT", "gpt-4o", none, none, none, false⟩ none
    ⟨⟨"GPT", "gpt-4o", none, none, none, true⟩, LLMManager.new⟩ false
    (GPTBackend.new "gpt-4o") (GitHubBackend.new "gpt-4o" (some "t")) "q" "q" none none
    ⟨.error "x", .error "y", .error "i"⟩ ⟨.error "x", .error "y", .error "i"⟩
    rfl rfl rfl rfl rfl (by decide)
